import Mathlib

/-!
Shallow embedding of the psygreg-site language-resolution and content-fallback
engine: the `TranslationManager` class (browser-language detection, translation
bundle loading with fallback and caching, language switching, DOM translation
application) and the `ContentLoader` class (content-identifier resolution,
markdown fetching with fallback, page-metadata update).

Network fetches are modelled by oracle functions passed as parameters
(`fetchTr` for `translations/{lang}.json`, `fetchMd` for
`content/{lang}/{id}.md`); `none` / a non-`ok` outcome covers network errors,
non-success HTTP statuses and parse failures.  The DOM is modelled by explicit
element lists and record fields; each embedded operation additionally returns
the list of languages for which a network fetch was performed, so that
"no second fetch" style properties are statable.
-/

namespace PsygregSite

/-! ### String helpers

Core `String.splitOn` / `String.toLower` / `String.containsSubstr` do not
reduce in the kernel, so the string operations the code uses are given
structurally recursive equivalents on `List Char`. -/

/-- Characters of a string before the first `'-'`; the list-level part of the
JavaScript `browserLang.split('-')[0]`. -/
def takeUntilDash : List Char → List Char
  | [] => []
  | c :: rest => if c = '-' then [] else c :: takeUntilDash rest

/-- `browserLang.split('-')[0].toLowerCase()`: the primary language subtag,
lowercased. -/
def primarySubtag (s : String) : String :=
  String.mk ((takeUntilDash s.data).map Char.toLower)

/-- `pat.isPrefixOf`-based substring scan on character lists. -/
def listContainsSub (pat : List Char) : List Char → Bool
  | [] => pat.isEmpty
  | c :: rest => pat.isPrefixOf (c :: rest) || listContainsSub pat rest

/-- JavaScript `s.includes(pat)` for the non-empty patterns the code uses. -/
def containsSub (s pat : String) : Bool := listContainsSub pat.data s.data

/-- JavaScript `o || d` for a possibly-absent string `o`: `undefined` and the
empty string are falsy. -/
def jsOr (o : Option String) (d : String) : String :=
  match o with
  | some s => if s = "" then d else s
  | none => d

/-! ### Translation bundles and the cache

A bundle (the parse of `translations/{lang}.json`) is a flat key-to-string
mapping; the cache `this.translations` maps language codes to bundles. -/

/-- A flat key→string translation mapping (one language's bundle). -/
abbrev Bundle := List (String × String)

/-- The in-memory bundle cache `this.translations`, keyed by language code. -/
abbrev Cache := List (String × Bundle)

/-- Key lookup in a bundle (`translations[key]`): first matching entry, or
`none` when the key is absent. -/
def bundleGet : Bundle → String → Option String
  | [], _ => none
  | (k, v) :: rest, key => if key = k then some v else bundleGet rest key

/-- Cache lookup `this.translations[language]`. -/
def cacheLookup : Cache → String → Option Bundle
  | [], _ => none
  | (k, v) :: rest, key => if key = k then some v else cacheLookup rest key

/-- Cache assignment `this.translations[language] = bundle`: overwrites the
entry for that language in place (or appends a new one), leaves every other
language's entry intact. -/
def cacheSet : Cache → String → Bundle → Cache
  | [], key, b => [(key, b)]
  | (k, v) :: rest, key, b =>
      if key = k then (key, b) :: rest else (k, v) :: cacheSet rest key b

/-! ### TranslationManager.loadTranslations -/

/-- Result of a `loadTranslations` call: the bundle handed back to the caller,
the cache afterwards, and the instrumentation trace of languages for which a
network fetch of `translations/{lang}.json` was performed (in order). -/
structure LoadResult where
  bundle : Bundle
  cache : Cache
  fetched : List String
deriving DecidableEq, Repr

/-- `TranslationManager.loadTranslations(language)` (part_000 lines 36–55):
fetch `translations/{language}.json`; on success cache the parsed bundle under
`language` and return it; on failure, if `language` is not the fallback
language, recursively load the fallback language's bundle; if the fallback
itself fails, return an empty bundle and leave the cache untouched.
`fetchTr` is the network oracle (`none` = network error / non-ok / parse
failure). -/
def loadTranslations (fetchTr : String → Option Bundle) (fallbackLang : String)
    (language : String) (c : Cache) : LoadResult :=
  match fetchTr language with
  | some b => { bundle := b, cache := cacheSet c language b, fetched := [language] }
  | none =>
      if h : language ≠ fallbackLang then
        let r := loadTranslations fetchTr fallbackLang fallbackLang c
        { bundle := r.bundle, cache := r.cache, fetched := language :: r.fetched }
      else
        { bundle := [], cache := c, fetched := [language] }
termination_by (if language = fallbackLang then 0 else 1)
decreasing_by simp [h]

/-! ### Browser-language detection and initial resolution -/

/-- `TranslationManager.detectBrowserLanguage` (part_000 lines 9–34): walk the
browser's language preference list in order; the first entry whose primary
subtag is in the supported set wins; otherwise the fallback language. -/
def detectBrowserLanguage (supported : List String) (fallbackLang : String) :
    List String → String
  | [] => fallbackLang
  | browserLang :: rest =>
      let langCode := primarySubtag browserLang
      if supported.contains langCode then langCode
      else detectBrowserLanguage supported fallbackLang rest

/-- The language-resolution step of `TranslationManager.init` (part_000 lines
144–156): a saved preference (`localStorage.getItem('preferredLanguage')`,
`none` when absent) that is truthy and a member of the supported set wins;
otherwise browser detection decides. -/
def resolveInitialLanguage (supported : List String) (fallbackLang : String)
    (saved : Option String) (browserLangs : List String) : String :=
  match saved with
  | some s =>
      if s ≠ "" ∧ supported.contains s then s
      else detectBrowserLanguage supported fallbackLang browserLangs
  | none => detectBrowserLanguage supported fallbackLang browserLangs

/-! ### Applying translations to the DOM -/

/-- An element's displayed content: set via `textContent` (plain text) or via
`innerHTML` (rich markup). -/
inductive Content
  | text (s : String)
  | html (s : String)
deriving DecidableEq, Repr

/-- A DOM element carrying a `data-key` attribute.  `hasTitle`/`titleAttr`
model `hasAttribute('title')`/`setAttribute('title', …)`;
`nextSiblingExpanded` models `nextElementSibling.classList.contains('expanded')`
(false also when there is no next sibling). -/
structure Element where
  dataKey : String
  hasTitle : Bool
  titleAttr : String
  nextSiblingExpanded : Bool
  content : Content
deriving DecidableEq, Repr

/-- The per-element update in `updatePageTranslations` (part_000 lines 91–104)
for a non-`toggle-button` key: if the chosen bundle has a truthy value for the
element's key, update the `title` attribute when present, then insert the value
via `innerHTML` when it contains `'<a href'` and via `textContent` otherwise;
leave the element untouched when the value is absent or falsy. -/
def applyTranslationToElement (b : Bundle) (e : Element) : Element :=
  match bundleGet b e.dataKey with
  | some translation =>
      if translation ≠ "" then
        let e1 := if e.hasTitle then { e with titleAttr := translation } else e
        if containsSub translation "<a href" then { e1 with content := Content.html translation }
        else { e1 with content := Content.text translation }
      else e
  | none => e

/-- `TranslationManager.updateToggleButton` (part_000 lines 109–116): the
toggle button's text comes from `toggle-button-less` (default `'Show Less'`)
when the sibling list is expanded, else from `toggle-button` (default
`'Show Tools'`). -/
def updateToggleButton (b : Bundle) (e : Element) : Element :=
  if e.nextSiblingExpanded then
    { e with content := Content.text (jsOr (bundleGet b "toggle-button-less") "Show Less") }
  else
    { e with content := Content.text (jsOr (bundleGet b "toggle-button") "Show Tools") }

/-- The bundle `updatePageTranslations` works from (part_000 line 83):
`this.translations[this.currentLang] || this.translations[this.fallbackLang] || {}`
— the whole bundle for the current language when cached, else the whole
fallback bundle when cached, else empty. -/
def currentTranslationsOf (c : Cache) (currentLang fallbackLang : String) : Bundle :=
  match cacheLookup c currentLang with
  | some b => b
  | none =>
      match cacheLookup c fallbackLang with
      | some b => b
      | none => []

/-- The body of the `elements.forEach` loop in `updatePageTranslations`
(part_000 lines 85–106): the `toggle-button` key is special-cased, every other
key is a literal substitution. -/
def pageElementStep (b : Bundle) (e : Element) : Element :=
  if e.dataKey = "toggle-button" then updateToggleButton b e
  else applyTranslationToElement b e

/-- `TranslationManager.updatePageTranslations` (part_000 lines 81–107) over
the document's `[data-key]` elements. -/
def updatePageTranslations (c : Cache) (currentLang fallbackLang : String)
    (elements : List Element) : List Element :=
  elements.map (pageElementStep (currentTranslationsOf c currentLang fallbackLang))

/-! ### TranslationManager state and setLanguage -/

/-- The observable state the `TranslationManager` reads and writes:
`currentLang` (`this.currentLang`), the bundle cache, the document's `lang`
attribute, which supported-language button is styled active, the persisted
preference (`localStorage['preferredLanguage']`), and the translatable
elements of the document. -/
structure TMState where
  currentLang : String
  translations : Cache
  docLang : String
  langButtonsActive : String
  storedPref : Option String
  elements : List Element
deriving DecidableEq, Repr

/-- The load guard of `setLanguage` (part_000 lines 58–61):
`if (!this.translations[language]) await this.loadTranslations(language)`.
This is the cache-or-fetch behaviour the spec calls `loadBundle`: when a
bundle for `language` is already cached the cache is returned unchanged and
nothing is fetched; otherwise `loadTranslations` runs.  Returns the resulting
cache and the trace of languages fetched. -/
def ensureLoaded (fetchTr : String → Option Bundle) (fallbackLang : String)
    (language : String) (c : Cache) : Cache × List String :=
  match cacheLookup c language with
  | some _ => (c, [])
  | none =>
      let r := loadTranslations fetchTr fallbackLang language c
      (r.cache, r.fetched)

/-- `TranslationManager.setLanguage(language)` (part_000 lines 57–79): load
the bundle only when no cache entry for `language` exists, set the current
language and the document `lang` attribute, re-apply translations to every
tagged element, restyle the language buttons, and persist the preference.
Returns the new state together with the trace of languages fetched. -/
def setLanguage (fetchTr : String → Option Bundle) (fallbackLang : String)
    (language : String) (s : TMState) : TMState × List String :=
  let load := ensureLoaded fetchTr fallbackLang language s.translations
  ({ currentLang := language
     translations := load.1
     docLang := language
     langButtonsActive := language
     storedPref := some language
     elements := updatePageTranslations load.1 language fallbackLang s.elements },
   load.2)

/-! ### ContentLoader: markdown fetching -/

/-- Outcome of one `fetch` of `content/{lang}/{id}.md`: success with the
response text, a response with `response.ok` false, or a thrown network
error. -/
inductive FetchOutcome
  | ok (text : String)
  | notOk
  | netErr
deriving DecidableEq, Repr

/-- `ContentLoader.fetchMarkdownContent(contentType, language)`
(content-loader.js lines 69–93): try `content/{language}/{contentType}.md`;
when that attempt does not yield an ok response (non-ok falls through the
`if`, a network error is caught), and only when `language` is not `'en'`,
make exactly one further attempt at `content/en/{contentType}.md`; return the
text, or `none` when every attempt failed.  Also returns the trace of
languages fetched.  `fetchMd language contentType` is the network oracle. -/
def fetchMarkdownContent (fetchMd : String → String → FetchOutcome)
    (contentType language : String) : Option String × List String :=
  match fetchMd language contentType with
  | FetchOutcome.ok t => (some t, [language])
  | _ =>
      if language ≠ "en" then
        match fetchMd "en" contentType with
        | FetchOutcome.ok t => (some t, [language, "en"])
        | _ => (none, [language, "en"])
      else (none, [language])

/-! ### ContentLoader: content-identifier resolution and init -/

/-- `ContentLoader.getContentTypeFromPath` (content-loader.js lines 23–30):
derive the content identifier from known substrings of the URL path. -/
def getContentTypeFromPath (path : String) : Option String :=
  if containsSub path "handbook" then some "handbook"
  else if containsSub path "cli-mode" then some "cli-mode"
  else if containsSub path "knowledgebase" then some "knowledgebase"
  else if containsSub path "credits" then some "credits"
  else none

/-- `urlParams.get('content') || this.getContentTypeFromPath()`
(content-loader.js line 11): a truthy `content` query parameter takes
precedence; `URLSearchParams.get` yields `null` (here `none`) when the
parameter is absent, and the empty string is falsy. -/
def resolveContentType (queryContent : Option String) (path : String) : Option String :=
  match queryContent with
  | some q => if q ≠ "" then some q else getContentTypeFromPath path
  | none => getContentTypeFromPath path

/-- The visibility state of the content page: exactly one of the loading
panel, the rendered content, or the error panel is shown. -/
inductive ViewState
  | loading
  | content
  | error
deriving DecidableEq, Repr

/-- Result of `ContentLoader.init`: the resolved content identifier, the final
view state, the trace of languages for which a document fetch was performed,
and the raw markdown text handed to the renderer (when any). -/
structure CLResult where
  contentType : Option String
  view : ViewState
  fetchedLangs : List String
  rawContent : Option String
deriving DecidableEq, Repr

/-- `ContentLoader.init` / `loadContent` (content-loader.js lines 8–21 and
32–67): resolve the content identifier from the query parameter or the path;
with no identifier, show the error state without fetching; otherwise fetch the
markdown (with fallback).  `loadContent` guards the success path with
`if (content)` (line 46), so a fetch that yields empty text is falsy, throws
`'Content not found'` and shows the error panel; only non-empty text reaches
the content state. -/
def contentLoaderInit (fetchMd : String → String → FetchOutcome)
    (currentLang : String) (queryContent : Option String) (path : String) : CLResult :=
  match resolveContentType queryContent path with
  | some ct =>
      let r := fetchMarkdownContent fetchMd ct currentLang
      match r.1 with
      | some text =>
          if text ≠ "" then
            { contentType := some ct, view := ViewState.content,
              fetchedLangs := r.2, rawContent := some text }
          else
            { contentType := some ct, view := ViewState.error,
              fetchedLangs := r.2, rawContent := none }
      | none =>
          { contentType := some ct, view := ViewState.error,
            fetchedLangs := r.2, rawContent := none }
  | none =>
      { contentType := none, view := ViewState.error,
        fetchedLangs := [], rawContent := none }

/-! ### ContentLoader: page metadata -/

/-- The static `titles` table of `ContentLoader.updatePageMeta`
(content-loader.js lines 96–145): `titles[contentType]?.[language]`. -/
def titles : String → String → Option String
  | "handbook", "en" => some "Developer Handbook - LinuxToys"
  | "handbook", "pt" => some "Manual do Desenvolvedor - LinuxToys"
  | "handbook", "es" => some "Manual del Desarrollador - LinuxToys"
  | "handbook", "fr" => some "Manuel du Développeur - LinuxToys"
  | "handbook", "de" => some "Entwicklerhandbuch - LinuxToys"
  | "handbook", "nl" => some "Ontwikkelaarshandboek - LinuxToys"
  | "handbook", "zh" => some "开发者手册 - LinuxToys"
  | "handbook", "ja" => some "開発者ハンドブック - LinuxToys"
  | "handbook", "ru" => some "Руководство разработчика - LinuxToys"
  | "handbook", "ga" => some "Lámhleabhar Forbróra - LinuxToys"
  | "cli-mode", "en" => some "CLI Mode Instructions - LinuxToys"
  | "cli-mode", "pt" => some "Instruções do Modo CLI - LinuxToys"
  | "cli-mode", "es" => some "Instrucciones del Modo CLI - LinuxToys"
  | "cli-mode", "fr" => some "Instructions du Mode CLI - LinuxToys"
  | "cli-mode", "de" => some "CLI-Modus Anweisungen - LinuxToys"
  | "cli-mode", "nl" => some "CLI-modus Instructies - LinuxToys"
  | "cli-mode", "zh" => some "CLI 模式说明 - LinuxToys"
  | "cli-mode", "ja" => some "CLIモードの説明 - LinuxToys"
  | "cli-mode", "ru" => some "Инструкции CLI режима - LinuxToys"
  | "cli-mode", "ga" => some "Treoracha Mód CLI - LinuxToys"
  | "knowledgebase", "en" => some "Knowledge Base - LinuxToys"
  | "knowledgebase", "pt" => some "Base de Conhecimento - LinuxToys"
  | "knowledgebase", "es" => some "Base de Conocimientos - LinuxToys"
  | "knowledgebase", "fr" => some "Base de Connaissances - LinuxToys"
  | "knowledgebase", "de" => some "Wissensdatenbank - LinuxToys"
  | "knowledgebase", "nl" => some "Kennisbank - LinuxToys"
  | "knowledgebase", "zh" => some "知识库 - LinuxToys"
  | "knowledgebase", "ja" => some "ナレッジベース - LinuxToys"
  | "knowledgebase", "ru" => some "База знаний - LinuxToys"
  | "knowledgebase", "ga" => some "Bunachar Eolais - LinuxToys"
  | "credits", "en" => some "Credits & Acknowledgments - LinuxToys"
  | "credits", "pt" => some "Créditos & Reconhecimentos - LinuxToys"
  | "credits", "es" => some "Créditos & Reconocimientos - LinuxToys"
  | "credits", "fr" => some "Crédits & Remerciements - LinuxToys"
  | "credits", "de" => some "Credits & Danksagungen - LinuxToys"
  | "credits", "nl" => some "Credits & Dankbetuigingen - LinuxToys"
  | "credits", "zh" => some "致谢 & 鸣谢 - LinuxToys"
  | "credits", "ja" => some "クレジット & 謝辞 - LinuxToys"
  | "credits", "ru" => some "Авторские права и благодарности - LinuxToys"
  | "credits", "ga" => some "Creidiúintí & Aitheantas - LinuxToys"
  | _, _ => none

/-- The static `descriptions` table of `ContentLoader.updatePageMeta`
(content-loader.js lines 147–192); note it has no `ga` entries. -/
def descriptions : String → String → Option String
  | "handbook", "en" => some "Complete guide for developing LinuxToys tools and scripts"
  | "handbook", "pt" => some "Guia completo para desenvolver ferramentas e scripts do LinuxToys"
  | "handbook", "es" => some "Guía completa para desarrollar herramientas y scripts de LinuxToys"
  | "handbook", "fr" => some "Guide complet pour développer des outils et scripts LinuxToys"
  | "handbook", "de" => some "Vollständiger Leitfaden für die Entwicklung von LinuxToys-Tools und -Skripten"
  | "handbook", "nl" => some "Volledige gids voor het ontwikkelen van LinuxToys tools en scripts"
  | "handbook", "zh" => some "开发 LinuxToys 工具和脚本的完整指南"
  | "handbook", "ja" => some "LinuxToysツールとスクリプトの開発完全ガイド"
  | "handbook", "ru" => some "Полное руководство по разработке инструментов и скриптов LinuxToys"
  | "cli-mode", "en" => some "Learn how to use LinuxToys CLI mode for automated installations"
  | "cli-mode", "pt" => some "Aprenda a usar o modo CLI do LinuxToys para instalações automatizadas"
  | "cli-mode", "es" => some "Aprende a usar el modo CLI de LinuxToys para instalaciones automatizadas"
  | "cli-mode", "fr" => some "Apprenez à utiliser le mode CLI de LinuxToys pour les installations automatisées"
  | "cli-mode", "de" => some "Erfahren Sie, wie Sie den LinuxToys CLI-Modus für automatisierte Installationen verwenden"
  | "cli-mode", "nl" => some "Leer hoe je LinuxToys CLI-modus gebruikt voor geautomatiseerde installaties"
  | "cli-mode", "zh" => some "学习如何使用 LinuxToys CLI 模式进行自动化安装"
  | "cli-mode", "ja" => some "自動インストール用のLinuxToys CLIモードの使用方法を学ぶ"
  | "cli-mode", "ru" => some "Изучите, как использовать режим CLI LinuxToys для автоматических установок"
  | "knowledgebase", "en" => some "Comprehensive guide to LinuxToys features and installation procedures"
  | "knowledgebase", "pt" => some "Guia abrangente dos recursos e procedimentos de instalação do LinuxToys"
  | "knowledgebase", "es" => some "Guía completa de características y procedimientos de instalación de LinuxToys"
  | "knowledgebase", "fr" => some "Guide complet des fonctionnalités et procédures d'installation de LinuxToys"
  | "knowledgebase", "de" => some "Umfassender Leitfaden zu LinuxToys-Funktionen und Installationsverfahren"
  | "knowledgebase", "nl" => some "Uitgebreide gids voor LinuxToys functies en installatieprocedures"
  | "knowledgebase", "zh" => some "LinuxToys 功能和安装程序的综合指南"
  | "knowledgebase", "ja" => some "LinuxToysの機能とインストール手順の包括的ガイド"
  | "knowledgebase", "ru" => some "Полное руководство по функциям и процедурам установки LinuxToys"
  | "credits", "en" => some "Credits and acknowledgments for all the amazing developers who made LinuxToys features possible"
  | "credits", "pt" => some "Créditos e reconhecimentos para todos os incríveis desenvolvedores que tornaram possíveis os recursos do LinuxToys"
  | "credits", "es" => some "Créditos y reconocimientos para todos los increíbles desarrolladores que hicieron posibles las características de LinuxToys"
  | "credits", "fr" => some "Crédits et remerciements pour tous les incroyables développeurs qui ont rendu possibles les fonctionnalités de LinuxToys"
  | "credits", "de" => some "Credits und Danksagungen an alle erstaunlichen Entwickler, die die LinuxToys-Features möglich gemacht haben"
  | "credits", "nl" => some "Credits en dankbetuigingen voor alle geweldige ontwikkelaars die LinuxToys functies mogelijk maakten"
  | "credits", "zh" => some "向所有使LinuxToys功能成为可能的优秀开发者致谢和鸣谢"
  | "credits", "ja" => some "LinuxToysの機能を可能にしてくれた全ての素晴らしい開発者への謝辞と感謝"
  | "credits", "ru" => some "Благодарности и признание всем удивительным разработчикам, которые сделали возможными функции LinuxToys"
  | _, _ => none

/-- The metadata slots `updatePageMeta` writes: `document.title`, the
`page-title` element, the `og:title`/`twitter:title` tags, and the
`page-description`/`og:description`/`twitter:description` tags. -/
structure MetaState where
  docTitle : String
  pageTitleEl : String
  ogTitle : String
  twitterTitle : String
  pageDescription : String
  ogDescription : String
  twitterDescription : String
deriving DecidableEq, Repr

/-- `ContentLoader.updatePageMeta(contentType, language)` (content-loader.js
lines 95–208): `titles[ct]?.[lang] || titles[ct]?.['en'] || 'LinuxToys'` for
the title and likewise with `'LinuxToys documentation'` for the description;
the same title goes to every title slot and the same description to every
description slot. -/
def updatePageMeta (contentType language : String) : MetaState :=
  let title := jsOr (titles contentType language) (jsOr (titles contentType "en") "LinuxToys")
  let description := jsOr (descriptions contentType language)
    (jsOr (descriptions contentType "en") "LinuxToys documentation")
  { docTitle := title
    pageTitleEl := title
    ogTitle := title
    twitterTitle := title
    pageDescription := description
    ogDescription := description
    twitterDescription := description }

/-! ### Lemmas about the bundle cache -/

theorem cacheLookup_cacheSet (c : Cache) (k key : String) (b : Bundle) :
    cacheLookup (cacheSet c k b) key = if key = k then some b else cacheLookup c key := by
  induction c with
  | nil => simp [cacheSet, cacheLookup]
  | cons hd tl ih =>
      obtain ⟨k', v'⟩ := hd
      by_cases hk : k = k'
      · subst hk
        by_cases hkey : key = k <;> simp [cacheSet, cacheLookup, hkey]
      · by_cases hkey : key = k'
        · subst hkey
          simp [cacheSet, cacheLookup, hk, Ne.symm hk]
        · simp [cacheSet, cacheLookup, hk, hkey, ih]

theorem cacheSet_idem (c : Cache) (k : String) (b : Bundle) :
    cacheSet (cacheSet c k b) k b = cacheSet c k b := by
  induction c with
  | nil => simp [cacheSet]
  | cons hd tl ih =>
      obtain ⟨k', v'⟩ := hd
      by_cases hk : k = k' <;> simp [cacheSet, hk, ih]

/-! ### Unfolding lemmas for loadTranslations -/

theorem loadTranslations_some (fetchTr : String → Option Bundle)
    (fallbackLang language : String) (c : Cache) (b : Bundle)
    (h : fetchTr language = some b) :
    loadTranslations fetchTr fallbackLang language c =
      { bundle := b, cache := cacheSet c language b, fetched := [language] } := by
  rw [loadTranslations, h]

theorem loadTranslations_none_ne (fetchTr : String → Option Bundle)
    (fallbackLang language : String) (c : Cache)
    (h : fetchTr language = none) (hne : language ≠ fallbackLang) :
    loadTranslations fetchTr fallbackLang language c =
      { bundle := (loadTranslations fetchTr fallbackLang fallbackLang c).bundle
        cache := (loadTranslations fetchTr fallbackLang fallbackLang c).cache
        fetched := language :: (loadTranslations fetchTr fallbackLang fallbackLang c).fetched } := by
  rw [loadTranslations, h]
  simp [hne]

theorem loadTranslations_fb_none (fetchTr : String → Option Bundle)
    (fallbackLang : String) (c : Cache)
    (h : fetchTr fallbackLang = none) :
    loadTranslations fetchTr fallbackLang fallbackLang c =
      { bundle := [], cache := c, fetched := [fallbackLang] } := by
  rw [loadTranslations, h]
  simp

/-! ### Lemmas about element updates -/

theorem applyTranslationToElement_fields (b : Bundle) (e : Element) :
    (applyTranslationToElement b e).dataKey = e.dataKey ∧
    (applyTranslationToElement b e).hasTitle = e.hasTitle ∧
    (applyTranslationToElement b e).nextSiblingExpanded = e.nextSiblingExpanded := by
  unfold applyTranslationToElement
  rcases h : bundleGet b e.dataKey with _ | t
  · simp
  · by_cases ht : t = "" <;> by_cases hT : e.hasTitle <;>
      by_cases hc : containsSub t "<a href" <;> simp [ht, hT, hc]

theorem applyTranslationToElement_unchanged (b : Bundle) (e : Element)
    (h : bundleGet b e.dataKey = none ∨ bundleGet b e.dataKey = some "") :
    applyTranslationToElement b e = e := by
  unfold applyTranslationToElement
  rcases h with h | h <;> rw [h] <;> simp

theorem applyTranslationToElement_eq (b : Bundle) (e : Element) (t : String)
    (h : bundleGet b e.dataKey = some t) (ht : ¬ t = "") :
    applyTranslationToElement b e =
      { dataKey := e.dataKey
        hasTitle := e.hasTitle
        titleAttr := if e.hasTitle then t else e.titleAttr
        nextSiblingExpanded := e.nextSiblingExpanded
        content := if containsSub t "<a href" then Content.html t else Content.text t } := by
  unfold applyTranslationToElement
  rw [h]
  by_cases hT : e.hasTitle <;> by_cases hc : containsSub t "<a href" = true <;>
    simp [ht, hT, hc]

theorem applyTranslationToElement_idem (b : Bundle) (e : Element) :
    applyTranslationToElement b (applyTranslationToElement b e) =
      applyTranslationToElement b e := by
  rcases h : bundleGet b e.dataKey with _ | t
  · have he := applyTranslationToElement_unchanged b e (Or.inl h)
    rw [he]
    exact he
  · by_cases ht : t = ""
    · subst ht
      have he := applyTranslationToElement_unchanged b e (Or.inr h)
      rw [he]
      exact he
    · have he := applyTranslationToElement_eq b e t h ht
      rw [he]
      rw [applyTranslationToElement_eq b
        { dataKey := e.dataKey
          hasTitle := e.hasTitle
          titleAttr := if e.hasTitle then t else e.titleAttr
          nextSiblingExpanded := e.nextSiblingExpanded
          content := if containsSub t "<a href" then Content.html t else Content.text t }
        t h ht]
      by_cases hT : e.hasTitle <;> simp [hT]

theorem updateToggleButton_idem (b : Bundle) (e : Element) :
    updateToggleButton b (updateToggleButton b e) = updateToggleButton b e := by
  unfold updateToggleButton
  by_cases hx : e.nextSiblingExpanded <;> simp [hx]

theorem pageElementStep_idem (b : Bundle) (e : Element) :
    pageElementStep b (pageElementStep b e) = pageElementStep b e := by
  unfold pageElementStep
  by_cases hk : e.dataKey = "toggle-button"
  · have hk2 : (updateToggleButton b e).dataKey = e.dataKey := by
      unfold updateToggleButton
      by_cases hx : e.nextSiblingExpanded <;> simp [hx]
    simp [hk, hk2, updateToggleButton_idem]
  · have hk2 : (applyTranslationToElement b e).dataKey = e.dataKey :=
      (applyTranslationToElement_fields b e).1
    simp [hk, hk2, applyTranslationToElement_idem]

theorem updatePageTranslations_idem (c : Cache) (currentLang fallbackLang : String)
    (elements : List Element) :
    updatePageTranslations c currentLang fallbackLang
        (updatePageTranslations c currentLang fallbackLang elements) =
      updatePageTranslations c currentLang fallbackLang elements := by
  unfold updatePageTranslations
  rw [List.map_map]
  exact List.map_congr_left (fun e _ => pageElementStep_idem _ e)

/-! ### Stability of the setLanguage load guard -/

theorem ensureLoaded_stable (fetchTr : String → Option Bundle)
    (fallbackLang language : String) (c : Cache) :
    (ensureLoaded fetchTr fallbackLang language
        (ensureLoaded fetchTr fallbackLang language c).1).1 =
      (ensureLoaded fetchTr fallbackLang language c).1 := by
  unfold ensureLoaded
  rcases h : cacheLookup c language with _ | b
  · rcases hf : fetchTr language with _ | b'
    · by_cases hne : language = fallbackLang
      · subst hne
        rcases hfb : fetchTr language with _ | bfb
        · rw [loadTranslations_fb_none fetchTr language c hf]
          simp [h, loadTranslations_fb_none fetchTr language c hf]
        · exact absurd hfb (by simp [hf])
      · rw [loadTranslations_none_ne fetchTr fallbackLang language c hf hne]
        rcases hfb : fetchTr fallbackLang with _ | bfb
        · rw [loadTranslations_fb_none fetchTr fallbackLang c hfb]
          simp [h, loadTranslations_none_ne fetchTr fallbackLang language c hf hne,
            loadTranslations_fb_none fetchTr fallbackLang c hfb]
        · rw [loadTranslations_some fetchTr fallbackLang fallbackLang c bfb hfb]
          have hlk : cacheLookup (cacheSet c fallbackLang bfb) language = none := by
            rw [cacheLookup_cacheSet]
            simp [hne, h]
          simp only [hlk]
          rw [loadTranslations_none_ne fetchTr fallbackLang language
              (cacheSet c fallbackLang bfb) hf hne]
          rw [loadTranslations_some fetchTr fallbackLang fallbackLang
              (cacheSet c fallbackLang bfb) bfb hfb]
          simp [cacheSet_idem]
    · rw [loadTranslations_some fetchTr fallbackLang language c b' hf]
      have hlk : cacheLookup (cacheSet c language b') language = some b' := by
        rw [cacheLookup_cacheSet]
        simp
      simp [hlk]
  · simp [h]

/-- `detectBrowserLanguage` picks the first browser language whose primary
subtag is supported (`List.find?` is "first element satisfying"). -/
theorem detectBrowserLanguage_eq_find (supported : List String) (fallbackLang : String)
    (bl : List String) :
    detectBrowserLanguage supported fallbackLang bl =
      match bl.find? (fun l => supported.contains (primarySubtag l)) with
      | some l => primarySubtag l
      | none => fallbackLang := by
  induction bl with
  | nil => rfl
  | cons hd tl ih =>
      simp only [detectBrowserLanguage]
      by_cases hh : supported.contains (primarySubtag hd) = true
      · rw [if_pos hh,
          @List.find?_cons_of_pos _ (fun l => supported.contains (primarySubtag l)) hd tl hh]
      · rw [if_neg hh,
          @List.find?_cons_of_neg _ (fun l => supported.contains (primarySubtag l)) hd tl hh]
        exact ih

/-! ### Claim theorems -/

/-- C1: when a bundle for the requested language is already in the cache, the
load step of `setLanguage` (the spec's `loadBundle` cache check) performs no
fetch, leaves the cache — and in particular the cached bundle object — intact,
and the bundle subsequently used for the page is exactly the cached one. -/
theorem c1_loadBundle_cached_no_refetch (fetchTr : String → Option Bundle)
    (fallbackLang language : String) (s : TMState) (b : Bundle)
    (h : cacheLookup s.translations language = some b) :
    ensureLoaded fetchTr fallbackLang language s.translations = (s.translations, []) ∧
    (setLanguage fetchTr fallbackLang language s).2 = [] ∧
    (setLanguage fetchTr fallbackLang language s).1.translations = s.translations ∧
    currentTranslationsOf (setLanguage fetchTr fallbackLang language s).1.translations
      language fallbackLang = b := by
  have hE : ensureLoaded fetchTr fallbackLang language s.translations = (s.translations, []) := by
    unfold ensureLoaded
    rw [h]
  refine ⟨hE, ?_, ?_, ?_⟩ <;> simp [setLanguage, hE, currentTranslationsOf, h]

/-- Witness for C1 at a concrete cached state. -/
theorem c1_witness :
    ensureLoaded (fun _ => none) "en" "pt" [("pt", [("a", "A")])] =
      ([("pt", [("a", "A")])], []) ∧
    (setLanguage (fun _ => none) "en" "pt"
        { currentLang := "en", translations := [("pt", [("a", "A")])], docLang := "en",
          langButtonsActive := "en", storedPref := none, elements := [] }).2 = [] ∧
    (setLanguage (fun _ => none) "en" "pt"
        { currentLang := "en", translations := [("pt", [("a", "A")])], docLang := "en",
          langButtonsActive := "en", storedPref := none, elements := [] }).1.translations =
      [("pt", [("a", "A")])] ∧
    currentTranslationsOf
      (setLanguage (fun _ => none) "en" "pt"
          { currentLang := "en", translations := [("pt", [("a", "A")])], docLang := "en",
            langButtonsActive := "en", storedPref := none, elements := [] }).1.translations
      "pt" "en" = [("a", "A")] :=
  c1_loadBundle_cached_no_refetch (fun _ => none) "en" "pt"
    { currentLang := "en", translations := [("pt", [("a", "A")])], docLang := "en",
      langButtonsActive := "en", storedPref := none, elements := [] }
    [("a", "A")] (by decide)

/-- C3: `loadTranslations` never raises (it is a total function into usable
bundles): on success it returns the fetched bundle; when the fetch for a
non-fallback language fails it returns the result of loading the fallback
language's bundle (with the failed attempt prepended to the fetch trace); and
when the fallback fetch itself also fails it returns an empty mapping without
touching the cache. -/
theorem c3_loadTranslations_total_fallback (fetchTr : String → Option Bundle)
    (fallbackLang language : String) (c : Cache) :
    (∀ b, fetchTr language = some b →
        (loadTranslations fetchTr fallbackLang language c).bundle = b) ∧
    (fetchTr language = none → language ≠ fallbackLang →
        loadTranslations fetchTr fallbackLang language c =
          { bundle := (loadTranslations fetchTr fallbackLang fallbackLang c).bundle
            cache := (loadTranslations fetchTr fallbackLang fallbackLang c).cache
            fetched := language ::
              (loadTranslations fetchTr fallbackLang fallbackLang c).fetched }) ∧
    (fetchTr language = none → fetchTr fallbackLang = none →
        (loadTranslations fetchTr fallbackLang language c).bundle = [] ∧
        (loadTranslations fetchTr fallbackLang language c).cache = c) := by
  refine ⟨?_, ?_, ?_⟩
  · intro b h
    rw [loadTranslations_some fetchTr fallbackLang language c b h]
  · intro h hne
    exact loadTranslations_none_ne fetchTr fallbackLang language c h hne
  · intro h hfb
    by_cases hne : language = fallbackLang
    · subst hne
      rw [loadTranslations_fb_none fetchTr language c h]
      exact ⟨rfl, rfl⟩
    · rw [loadTranslations_none_ne fetchTr fallbackLang language c h hne,
        loadTranslations_fb_none fetchTr fallbackLang c hfb]
      exact ⟨rfl, rfl⟩

/-- Witness for C3: both fetches fail, the caller still receives an empty
mapping and an unchanged cache. -/
theorem c3_witness :
    (loadTranslations (fun _ => none) "en" "pt" []).bundle = [] ∧
    (loadTranslations (fun _ => none) "en" "pt" []).cache = [] :=
  (c3_loadTranslations_total_fallback (fun _ => none) "en" "pt" []).2.2 rfl rfl

/-- C7: re-invoking `setLanguage` with the language that is already active is
idempotent — the whole observable state (cache, document language, applied
translations, button styling, persisted preference) after the second call
equals the state after the first, and the active language is unchanged. -/
theorem c7_setLanguage_idempotent (fetchTr : String → Option Bundle)
    (fallbackLang language : String) (s : TMState)
    (h : s.currentLang = language) :
    (setLanguage fetchTr fallbackLang language
        ((setLanguage fetchTr fallbackLang language s).1)).1 =
      (setLanguage fetchTr fallbackLang language s).1 ∧
    ((setLanguage fetchTr fallbackLang language s).1).currentLang = s.currentLang := by
  constructor
  · have hE := ensureLoaded_stable fetchTr fallbackLang language s.translations
    simp [setLanguage, hE, updatePageTranslations_idem]
  · simp [setLanguage, h]

/-- Witness for C7 at a concrete state whose language is already active. -/
theorem c7_witness :
    (setLanguage (fun _ => none) "en" "pt"
        ((setLanguage (fun _ => none) "en" "pt"
            { currentLang := "pt", translations := [], docLang := "pt",
              langButtonsActive := "pt", storedPref := some "pt",
              elements := [] }).1)).1 =
      (setLanguage (fun _ => none) "en" "pt"
          { currentLang := "pt", translations := [], docLang := "pt",
            langButtonsActive := "pt", storedPref := some "pt", elements := [] }).1 ∧
    ((setLanguage (fun _ => none) "en" "pt"
        { currentLang := "pt", translations := [], docLang := "pt",
          langButtonsActive := "pt", storedPref := some "pt",
          elements := [] }).1).currentLang = "pt" :=
  c7_setLanguage_idempotent (fun _ => none) "en" "pt"
    { currentLang := "pt", translations := [], docLang := "pt",
      langButtonsActive := "pt", storedPref := some "pt", elements := [] } (by decide)

/-- C10: when the fetch for a non-fallback language fails, `loadTranslations`
creates no cache entry under the requested language's key — the entry for it
(and for every key other than the fallback language) is exactly what it was
before — while the fallback bundle, if its fetch succeeds, is cached under the
fallback language's key only; if the fallback fetch also fails the cache is
untouched. -/
theorem c10_no_cache_entry_for_failed_language (fetchTr : String → Option Bundle)
    (fallbackLang language : String) (c : Cache)
    (h1 : fetchTr language = none) (h2 : language ≠ fallbackLang) :
    (∀ k, k ≠ fallbackLang →
        cacheLookup (loadTranslations fetchTr fallbackLang language c).cache k =
          cacheLookup c k) ∧
    cacheLookup (loadTranslations fetchTr fallbackLang language c).cache language =
      cacheLookup c language ∧
    (∀ b, fetchTr fallbackLang = some b →
        cacheLookup (loadTranslations fetchTr fallbackLang language c).cache fallbackLang =
          some b) ∧
    (fetchTr fallbackLang = none →
        (loadTranslations fetchTr fallbackLang language c).cache = c) := by
  rw [loadTranslations_none_ne fetchTr fallbackLang language c h1 h2]
  rcases hfb : fetchTr fallbackLang with _ | bfb
  · rw [loadTranslations_fb_none fetchTr fallbackLang c hfb]
    simp
  · rw [loadTranslations_some fetchTr fallbackLang fallbackLang c bfb hfb]
    refine ⟨?_, ?_, ?_, ?_⟩
    · intro k hk
      simp only []
      rw [cacheLookup_cacheSet]
      simp [hk]
    · simp only []
      rw [cacheLookup_cacheSet]
      simp [h2]
    · intro b hb
      cases hb
      simp only []
      rw [cacheLookup_cacheSet]
      simp
    · intro hn
      cases hn

/-- Witness for C10: loading `pt` fails, `en` succeeds; no cache entry appears
under `pt`, the fetched bundle is cached under `en`. -/
theorem c10_witness :
    cacheLookup
        (loadTranslations (fun l => if l = "en" then some [("k", "v")] else none)
          "en" "pt" []).cache "pt" =
      cacheLookup ([] : Cache) "pt" ∧
    cacheLookup
        (loadTranslations (fun l => if l = "en" then some [("k", "v")] else none)
          "en" "pt" []).cache "en" =
      some [("k", "v")] :=
  ⟨(c10_no_cache_entry_for_failed_language
      (fun l => if l = "en" then some [("k", "v")] else none) "en" "pt" []
      (by decide) (by decide)).2.1,
   (c10_no_cache_entry_for_failed_language
      (fun l => if l = "en" then some [("k", "v")] else none) "en" "pt" []
      (by decide) (by decide)).2.2.1 [("k", "v")] (by decide)⟩

/-- C4: initial language resolution priority — a stored preference that is a
member of the supported set wins; otherwise the first browser language whose
lowercased primary subtag is supported; otherwise the fallback.  In
particular, with browser list `["fr-FR","pt-BR","en-US"]`, supported
`{en, pt}` and no stored preference the result is `pt`, and with stored
preference `pt` the stored value wins over browser preference `en`. -/
theorem c4_initial_language_resolution :
    (∀ (supported : List String) (fallbackLang : String) (bl : List String) (s : String),
        s ≠ "" → supported.contains s = true →
        resolveInitialLanguage supported fallbackLang (some s) bl = s) ∧
    (∀ (supported : List String) (fallbackLang : String) (bl : List String),
        resolveInitialLanguage supported fallbackLang none bl =
          detectBrowserLanguage supported fallbackLang bl) ∧
    (∀ (supported : List String) (fallbackLang : String) (bl : List String),
        detectBrowserLanguage supported fallbackLang bl =
          match bl.find? (fun l => supported.contains (primarySubtag l)) with
          | some l => primarySubtag l
          | none => fallbackLang) ∧
    resolveInitialLanguage ["en", "pt"] "en" none ["fr-FR", "pt-BR", "en-US"] = "pt" ∧
    resolveInitialLanguage ["en", "pt"] "en" (some "pt") ["en"] = "pt" := by
  refine ⟨?_, ?_, ?_, by decide, by decide⟩
  · intro supported fallbackLang bl s hs hsup
    simp only [resolveInitialLanguage]
    rw [if_pos ⟨hs, hsup⟩]
  · intro supported fallbackLang bl
    rfl
  · intro supported fallbackLang bl
    exact detectBrowserLanguage_eq_find supported fallbackLang bl

/-- Witness for C4: the stored-preference branch applied at a concrete
input. -/
theorem c4_witness :
    resolveInitialLanguage ["en", "pt"] "en" (some "pt") ["en", "fr"] = "pt" :=
  c4_initial_language_resolution.1 ["en", "pt"] "en" ["en", "fr"] "pt"
    (by decide) (by decide)

/-- C5: `fetchMarkdownContent` is a two-level fallback chain — success on the
first attempt returns immediately with a single fetch; on failure, exactly one
further attempt is made, targeting `en`, and only when the requested language
is not `en`; the result is the fallback text on success and `none` when both
attempts fail. -/
theorem c5_fetchDocument_two_level_fallback (fetchMd : String → String → FetchOutcome)
    (contentType language : String) :
    (∀ t, fetchMd language contentType = FetchOutcome.ok t →
        fetchMarkdownContent fetchMd contentType language = (some t, [language])) ∧
    ((∀ t, fetchMd language contentType ≠ FetchOutcome.ok t) → language ≠ "en" →
        (fetchMarkdownContent fetchMd contentType language).2 = [language, "en"] ∧
        (∀ t, fetchMd "en" contentType = FetchOutcome.ok t →
            (fetchMarkdownContent fetchMd contentType language).1 = some t) ∧
        ((∀ t, fetchMd "en" contentType ≠ FetchOutcome.ok t) →
            (fetchMarkdownContent fetchMd contentType language).1 = none)) ∧
    ((∀ t, fetchMd language contentType ≠ FetchOutcome.ok t) → language = "en" →
        fetchMarkdownContent fetchMd contentType language = (none, [language])) := by
  refine ⟨?_, ?_, ?_⟩
  · intro t ht
    unfold fetchMarkdownContent
    rw [ht]
  · intro hfail hne
    unfold fetchMarkdownContent
    rcases h : fetchMd language contentType with t0 | _ | _
    · exact absurd h (hfail t0)
    all_goals
      rw [if_pos hne]
      rcases h2 : fetchMd "en" contentType with t1 | _ | _ <;>
        refine ⟨rfl, ?_, ?_⟩ <;> intro hx
    · intro hx2
      cases hx2
      rfl
    · exact absurd rfl (hx t1)
    · intro hx2
      cases hx2
    · rfl
    · intro hx2
      cases hx2
    · rfl
    · intro hx2
      cases hx2
      rfl
    · exact absurd rfl (hx t1)
    · intro hx2
      cases hx2
    · rfl
    · intro hx2
      cases hx2
    · rfl
  · intro hfail heq
    subst heq
    unfold fetchMarkdownContent
    rcases h : fetchMd "en" contentType with t0 | _ | _
    · exact absurd h (hfail t0)
    · simp
    · simp

/-- Witness for C5: the requested language `de` fails with a non-ok response,
the single fallback attempt at `en` succeeds. -/
theorem c5_witness :
    (fetchMarkdownContent
        (fun l _ => if l = "en" then FetchOutcome.ok "EN" else FetchOutcome.notOk)
        "handbook" "de").2 = ["de", "en"] ∧
    (fetchMarkdownContent
        (fun l _ => if l = "en" then FetchOutcome.ok "EN" else FetchOutcome.notOk)
        "handbook" "de").1 = some "EN" := by
  have h := (c5_fetchDocument_two_level_fallback
      (fun l _ => if l = "en" then FetchOutcome.ok "EN" else FetchOutcome.notOk)
      "handbook" "de").2.1 (fun t ht => by simp at ht) (by decide)
  exact ⟨h.1, h.2.1 "EN" (by decide)⟩

/-- C6: with no query parameter (or an empty one) and no known path substring,
the content component goes straight to the error state with no document fetch;
when a non-empty query parameter is present it takes precedence over the
path. -/
theorem c6_unknown_identifier_error_no_fetch (fetchMd : String → String → FetchOutcome)
    (currentLang : String) (queryContent : Option String) (path : String) :
    ((queryContent = none ∨ queryContent = some "") →
        getContentTypeFromPath path = none →
        contentLoaderInit fetchMd currentLang queryContent path =
          { contentType := none, view := ViewState.error, fetchedLangs := [],
            rawContent := none }) ∧
    (∀ q, queryContent = some q → q ≠ "" →
        (contentLoaderInit fetchMd currentLang queryContent path).contentType = some q) := by
  constructor
  · intro hq hp
    rcases hq with hq | hq <;> subst hq <;>
      simp [contentLoaderInit, resolveContentType, hp]
  · intro q hq hne
    subst hq
    rcases h : (fetchMarkdownContent fetchMd q currentLang).1 with _ | t
    · simp [contentLoaderInit, resolveContentType, hne, h]
    · by_cases ht : t = "" <;>
        simp [contentLoaderInit, resolveContentType, hne, h, ht]

/-- Witness for C6: an unresolvable identifier yields the error state without
any fetch; a query parameter beats a path that names another identifier. -/
theorem c6_witness :
    contentLoaderInit (fun _ _ => FetchOutcome.ok "T") "en" none "/about" =
      { contentType := none, view := ViewState.error, fetchedLangs := [],
        rawContent := none } ∧
    (contentLoaderInit (fun _ _ => FetchOutcome.ok "T") "en" (some "credits")
        "/handbook").contentType = some "credits" :=
  ⟨(c6_unknown_identifier_error_no_fetch (fun _ _ => FetchOutcome.ok "T") "en" none
      "/about").1 (Or.inl rfl) (by decide),
   (c6_unknown_identifier_error_no_fetch (fun _ _ => FetchOutcome.ok "T") "en"
      (some "credits") "/handbook").2 "credits" rfl (by decide)⟩

/-- C8: a truthy translation value is inserted via `innerHTML` if and only if
it contains the anchor-tag open sequence `'<a href'`; any other value is
inserted as plain text, so no other markup is ever interpreted as HTML. -/
theorem c8_markup_iff_anchor (b : Bundle) (e : Element) (t : String)
    (h : bundleGet b e.dataKey = some t) (ht : t ≠ "") :
    ((applyTranslationToElement b e).content = Content.html t ↔
        containsSub t "<a href" = true) ∧
    (containsSub t "<a href" = false →
        (applyTranslationToElement b e).content = Content.text t) := by
  rw [applyTranslationToElement_eq b e t h ht]
  by_cases hcc : containsSub t "<a href" = true <;> simp [hcc]

/-- Witness for C8 at a value containing the anchor sequence. -/
theorem c8_witness :
    ((applyTranslationToElement [("k", "see <a href=x>link</a>")]
        { dataKey := "k", hasTitle := false, titleAttr := "",
          nextSiblingExpanded := false, content := Content.text "o" }).content =
      Content.html "see <a href=x>link</a>" ↔
        containsSub "see <a href=x>link</a>" "<a href" = true) ∧
    (containsSub "see <a href=x>link</a>" "<a href" = false →
        (applyTranslationToElement [("k", "see <a href=x>link</a>")]
            { dataKey := "k", hasTitle := false, titleAttr := "",
              nextSiblingExpanded := false, content := Content.text "o" }).content =
          Content.text "see <a href=x>link</a>") :=
  c8_markup_iff_anchor [("k", "see <a href=x>link</a>")]
    { dataKey := "k", hasTitle := false, titleAttr := "",
      nextSiblingExpanded := false, content := Content.text "o" }
    "see <a href=x>link</a>" (by decide) (by decide)

/-- C9: page metadata follows the three-step fallback — the entry for
identifier+language, else identifier+`en`, else the generic site name
`'LinuxToys'` / generic description `'LinuxToys documentation'` — and the
chosen title is applied identically to the document title, the page heading
and the og/twitter title tags, the chosen description identically to the
description, og and twitter tags. -/
theorem c9_page_meta_three_step_fallback (contentType language : String) :
    ((updatePageMeta contentType language).pageTitleEl =
        (updatePageMeta contentType language).docTitle ∧
      (updatePageMeta contentType language).ogTitle =
        (updatePageMeta contentType language).docTitle ∧
      (updatePageMeta contentType language).twitterTitle =
        (updatePageMeta contentType language).docTitle ∧
      (updatePageMeta contentType language).ogDescription =
        (updatePageMeta contentType language).pageDescription ∧
      (updatePageMeta contentType language).twitterDescription =
        (updatePageMeta contentType language).pageDescription) ∧
    (∀ t, titles contentType language = some t → t ≠ "" →
        (updatePageMeta contentType language).docTitle = t) ∧
    (titles contentType language = none →
        ∀ t, titles contentType "en" = some t → t ≠ "" →
          (updatePageMeta contentType language).docTitle = t) ∧
    (titles contentType language = none → titles contentType "en" = none →
        (updatePageMeta contentType language).docTitle = "LinuxToys") ∧
    (∀ d, descriptions contentType language = some d → d ≠ "" →
        (updatePageMeta contentType language).pageDescription = d) ∧
    (descriptions contentType language = none →
        ∀ d, descriptions contentType "en" = some d → d ≠ "" →
          (updatePageMeta contentType language).pageDescription = d) ∧
    (descriptions contentType language = none → descriptions contentType "en" = none →
        (updatePageMeta contentType language).pageDescription =
          "LinuxToys documentation") := by
  refine ⟨⟨rfl, rfl, rfl, rfl, rfl⟩, ?_, ?_, ?_, ?_, ?_, ?_⟩
  · intro t h ht
    simp [updatePageMeta, jsOr, h, ht]
  · intro h t h2 ht
    simp [updatePageMeta, jsOr, h, h2, ht]
  · intro h h2
    simp [updatePageMeta, jsOr, h, h2]
  · intro d h hd
    simp [updatePageMeta, jsOr, h, hd]
  · intro h d h2 hd
    simp [updatePageMeta, jsOr, h, h2, hd]
  · intro h h2
    simp [updatePageMeta, jsOr, h, h2]

/-- Witness for C9: a present entry, the identifier+`en` fallback (the `ga`
description, absent from the table), and the generic double fallback. -/
theorem c9_witness :
    (updatePageMeta "handbook" "pt").docTitle = "Manual do Desenvolvedor - LinuxToys" ∧
    (updatePageMeta "handbook" "ga").pageDescription =
      "Complete guide for developing LinuxToys tools and scripts" ∧
    (updatePageMeta "bogus" "xx").docTitle = "LinuxToys" ∧
    (updatePageMeta "bogus" "xx").pageDescription = "LinuxToys documentation" :=
  ⟨(c9_page_meta_three_step_fallback "handbook" "pt").2.1
      "Manual do Desenvolvedor - LinuxToys" (by decide) (by decide),
   (c9_page_meta_three_step_fallback "handbook" "ga").2.2.2.2.2.1 (by decide)
      "Complete guide for developing LinuxToys tools and scripts" (by decide) (by decide),
   (c9_page_meta_three_step_fallback "bogus" "xx").2.2.2.1 (by decide) (by decide),
   (c9_page_meta_three_step_fallback "bogus" "xx").2.2.2.2.2.2 (by decide) (by decide)⟩

/-- C2 counterexample: the active language's bundle (`pt`) is cached but
lacks the key `b`, the fallback bundle (`en`) has `b`, yet the element is
left unchanged — there is no per-key fallback into the fallback bundle, so
the claim's "left unchanged only if neither bundle has the key" is false. -/
theorem c2_counterexample :
    cacheLookup
        [("pt", [("a", "A-pt")]), ("en", [("a", "A-en"), ("b", "B-en")])] "pt" =
      some [("a", "A-pt")] ∧
    bundleGet [("a", "A-pt")] "b" = none ∧
    cacheLookup
        [("pt", [("a", "A-pt")]), ("en", [("a", "A-en"), ("b", "B-en")])] "en" =
      some [("a", "A-en"), ("b", "B-en")] ∧
    bundleGet [("a", "A-en"), ("b", "B-en")] "b" = some "B-en" ∧
    updatePageTranslations
        [("pt", [("a", "A-pt")]), ("en", [("a", "A-en"), ("b", "B-en")])] "pt" "en"
        [{ dataKey := "b", hasTitle := false, titleAttr := "",
           nextSiblingExpanded := false, content := Content.text "original" }] =
      [{ dataKey := "b", hasTitle := false, titleAttr := "",
         nextSiblingExpanded := false, content := Content.text "original" }] := by
  decide

/-- C2 (amended): translation fallback is bundle-level, not key-level.  One
bundle is chosen wholesale — the active language's cached bundle if present,
else the fallback language's cached bundle, else empty — and each element's
key (the special `toggle-button` key aside) is looked up only in that bundle:
the element takes the bundle's value when it is a non-empty string, and is
left unchanged otherwise, even when the other bundle has the key. -/
theorem c2_translation_lookup_bundle_level (c : Cache)
    (currentLang fallbackLang : String) (e : Element)
    (hk : e.dataKey ≠ "toggle-button") :
    (bundleGet (currentTranslationsOf c currentLang fallbackLang) e.dataKey = none →
        updatePageTranslations c currentLang fallbackLang [e] = [e]) ∧
    (bundleGet (currentTranslationsOf c currentLang fallbackLang) e.dataKey = some "" →
        updatePageTranslations c currentLang fallbackLang [e] = [e]) ∧
    (∀ t, bundleGet (currentTranslationsOf c currentLang fallbackLang) e.dataKey = some t →
        t ≠ "" →
        (updatePageTranslations c currentLang fallbackLang [e]).map Element.content =
          [if containsSub t "<a href" then Content.html t else Content.text t]) ∧
    (∀ b, cacheLookup c currentLang = some b →
        currentTranslationsOf c currentLang fallbackLang = b) ∧
    (cacheLookup c currentLang = none →
        ∀ b, cacheLookup c fallbackLang = some b →
          currentTranslationsOf c currentLang fallbackLang = b) ∧
    (cacheLookup c currentLang = none → cacheLookup c fallbackLang = none →
        currentTranslationsOf c currentLang fallbackLang = []) := by
  refine ⟨?_, ?_, ?_, ?_, ?_, ?_⟩
  · intro h
    simp only [updatePageTranslations, List.map, pageElementStep, hk, if_false]
    rw [applyTranslationToElement_unchanged _ _ (Or.inl h)]
  · intro h
    simp only [updatePageTranslations, List.map, pageElementStep, hk, if_false]
    rw [applyTranslationToElement_unchanged _ _ (Or.inr h)]
  · intro t h ht
    simp only [updatePageTranslations, List.map, pageElementStep, hk, if_false]
    rw [applyTranslationToElement_eq _ _ t h ht]
  · intro b h
    simp [currentTranslationsOf, h]
  · intro h b h2
    simp [currentTranslationsOf, h, h2]
  · intro h h2
    simp [currentTranslationsOf, h, h2]

/-- Witness for C2 (amended): the `pt` bundle is present and lacks the key,
so the element stays unchanged although the `en` bundle has the key. -/
theorem c2_witness :
    updatePageTranslations
        [("pt", [("a", "A-pt")]), ("en", [("a", "A-en"), ("b", "B-en")])] "pt" "en"
        [{ dataKey := "b", hasTitle := true, titleAttr := "tt",
           nextSiblingExpanded := false, content := Content.text "orig" }] =
      [{ dataKey := "b", hasTitle := true, titleAttr := "tt",
         nextSiblingExpanded := false, content := Content.text "orig" }] :=
  (c2_translation_lookup_bundle_level
      [("pt", [("a", "A-pt")]), ("en", [("a", "A-en"), ("b", "B-en")])] "pt" "en"
      { dataKey := "b", hasTitle := true, titleAttr := "tt",
        nextSiblingExpanded := false, content := Content.text "orig" }
      (by decide)).1 (by decide)

end PsygregSite
